import Mathlib

/-!
Verification of the flask-i18n-pro locale-resolution and time-formatting
core against its specification.

The embedding mirrors the Python source:
- `get_locale` (locale_selector.py): the 4-tier locale resolution.
  Request state is passed explicitly: the optional `lang` query parameter,
  the optional `lang` session slot, the ordered accepted-language tags and
  the configured `LANGUAGES` list.  The session write performed on the
  override tier is returned as an explicit instruction (key, value).
- `time_ago` and `is_new` (time_utils.py): instants are integer UTC
  timestamps in seconds and the reference `now` is an explicit argument,
  so `diff.total_seconds()` becomes `now - t`.
- the gettext fallback plural rule (singular iff n = 1) used by the
  untranslated `ngettext` path, and the Russian cardinal rule, which lives
  in the compiled translation catalog and is modelled from the spec.
-/

/-- Truthiness of a Python string: non-empty. -/
def pyTruthy (s : String) : Bool := s ≠ ""

/-- Primary subtag of a language tag: the part before the first dash
(`en-US` has primary subtag `en`). -/
def primary_subtag (t : String) : String := t.takeWhile (fun c => c ≠ '-')

/-- Modelled from the spec: the Accept-Language matcher
(`request.accept_languages.best_match`) lives in the web framework, not in
src/.  Per the spec, the accepted tags come ordered highest weight first
and standard language-tag negotiation is used: exact tag match preferred,
otherwise primary-subtag match; the matching supported locale is returned,
or nothing when no accepted tag matches. -/
def best_match : List String → List String → Option String
  | [], _ => none
  | a :: rest, languages =>
    match languages.find? (fun l => l == a) with
    | some l => some l
    | none =>
      match languages.find? (fun l => l == primary_subtag a) with
      | some l => some l
      | none => best_match rest languages

/-- The 4-tier locale selection of `get_locale` (locale_selector.py).
Inputs: `override` is `request.args.get("lang")` when `"lang"` is in the
query args, `sess` is `session.get("lang")` when `"lang"` is in the
session, `accepted` the ordered Accept-Language tags, `languages` the
configured `LANGUAGES` (already defaulted to `["en"]` by `config.get`).
Output: the selected locale together with the optional session-write
instruction emitted by tier 1 (`session["lang"] = lang`).  The tier-3
guard `if best_match:` is Python truthiness, so an empty-string match
falls through to the `"en"` default. -/
def get_locale (override : Option String) (sess : Option String)
    (accepted : List String) (languages : List String) :
    String × Option (String × String) :=
  let lower : String × Option (String × String) :=
    match sess with
    | some l => (l, none)
    | none =>
      match best_match accepted languages with
      | some m => if pyTruthy m then (m, none) else ("en", none)
      | none => ("en", none)
  match override with
  | some lang => if lang ∈ languages then (lang, some ("lang", lang)) else lower
  | none => lower

/-- Effect of a session-write instruction on the modelled session slot
(the session holds the single key `"lang"`). -/
def apply_session_write (sess : Option String) (w : Option (String × String)) :
    Option String :=
  match w with
  | none => sess
  | some kv => if kv.1 = "lang" then some kv.2 else sess

/-- The gettext untranslated-catalog plural choice made by `ngettext`:
the singular template for count 1, the plural template otherwise. -/
def ngettext (singular plural : String) (n : Int) : String :=
  if n = 1 then singular else plural

/-- Substitution of the decimal rendering of `n` for each occurrence of
the placeholder `%(num)d` in a character list. -/
def substNumList : List Char → Int → List Char
  | '%' :: '(' :: 'n' :: 'u' :: 'm' :: ')' :: 'd' :: rest, n =>
    (toString n).data ++ substNumList rest n
  | c :: rest, n => c :: substNumList rest n
  | [], _ => []

/-- The `% {"num": n}` substitution applied to the chosen template. -/
def subst_num (tmpl : String) (n : Int) : String :=
  String.mk (substNumList tmpl.data n)

/-- Relative-time formatting of `time_ago` (time_utils.py): bucket the
elapsed seconds `now - t` by the thresholds 60, 3600, 86400, 604800,
2592000, 31536000 tested in order, with `int(seconds / divisor)` as the
count of each bucket; an absent instant yields the `"Unknown"` phrase. -/
def time_ago (dt : Option Int) (now : Int) : String :=
  match dt with
  | none => "Unknown"
  | some t =>
    let seconds : Int := now - t
    if seconds < 60 then "Just now"
    else if seconds < 3600 then
      let minutes := seconds / 60
      subst_num (ngettext "%(num)d minute ago" "%(num)d minutes ago" minutes) minutes
    else if seconds < 86400 then
      let hours := seconds / 3600
      subst_num (ngettext "%(num)d hour ago" "%(num)d hours ago" hours) hours
    else if seconds < 604800 then
      let days := seconds / 86400
      subst_num (ngettext "%(num)d day ago" "%(num)d days ago" days) days
    else if seconds < 2592000 then
      let weeks := seconds / 604800
      subst_num (ngettext "%(num)d week ago" "%(num)d weeks ago" weeks) weeks
    else if seconds < 31536000 then
      let months := seconds / 2592000
      subst_num (ngettext "%(num)d month ago" "%(num)d months ago" months) months
    else
      let years := seconds / 31536000
      subst_num (ngettext "%(num)d year ago" "%(num)d years ago" years) years

/-- Recency test of `is_new` (time_utils.py): an absent instant is not
new; otherwise the elapsed seconds are strictly below the threshold given
in days. -/
def is_new (dt : Option Int) (now : Int) (days : Int) : Bool :=
  match dt with
  | none => false
  | some t => decide (now - t < days * 86400)

/-- Plural categories relevant to this system. -/
inductive PluralCategory where
  | one
  | few
  | many
  | other
  deriving DecidableEq, Repr

/-- Modelled from the spec: the Russian cardinal rule applied by the
pluralization entry points (such as `format_product_count`) through
`ngettext`; the rule itself lives in the compiled Russian catalog, which
is not in src/.  Category `one` if `count % 10 == 1 and count % 100 != 11`;
`few` if `count % 10 in [2..4] and count % 100 not in [12..14]`; else
`many`. -/
def selectCategoryRu (n : Nat) : PluralCategory :=
  if n % 10 = 1 ∧ n % 100 ≠ 11 then .one
  else if (2 ≤ n % 10 ∧ n % 10 ≤ 4) ∧ ¬(12 ≤ n % 100 ∧ n % 100 ≤ 14) then .few
  else .many

/-! Helper lemmas shared by the claim theorems. -/

/-- An override value outside the supported languages leaves the
resolution exactly as if no override had been given. -/
lemma get_locale_skip_invalid_override (w : String) (sess : Option String)
    (accepted languages : List String) (hw : w ∉ languages) :
    get_locale (some w) sess accepted languages =
      get_locale none sess accepted languages := by
  simp [get_locale, hw]

/-- Without an override, no session-write instruction is emitted. -/
lemma get_locale_no_override_snd (sess : Option String)
    (accepted languages : List String) :
    (get_locale none sess accepted languages).2 = none := by
  unfold get_locale
  cases sess with
  | some l => rfl
  | none =>
    cases hbm : best_match accepted languages with
    | none => simp [hbm]
    | some m =>
      simp only [hbm]
      by_cases hm : pyTruthy m <;> simp [hm]

/-- Elapsed time determines the rendering: `time_ago` at instant `t` and
reference `now` agrees with `time_ago` at instant `0` and reference
`now - t`. -/
lemma time_ago_shift (t now : Int) :
    time_ago (some t) now = time_ago (some 0) (now - t) := by
  simp only [time_ago, Int.sub_zero]

/-! Claim theorems. -/

/-- C1: for every override value that is a member of the supported
languages, `get_locale` returns exactly that value and emits a
session-write instruction persisting it under the fixed key `"lang"`,
whatever the session slot and the accepted-language list hold. -/
theorem c1_valid_override_selected_and_persisted
    (v : String) (sess : Option String) (accepted languages : List String)
    (hv : v ∈ languages) :
    get_locale (some v) sess accepted languages = (v, some ("lang", v)) := by
  simp [get_locale, hv]

/-- C1 witness at override `"ru"`, session `"zh"`, accepted `["mn"]`. -/
theorem c1_witness :
    ("ru" : String) ∈ ["en", "ru"] ∧
      get_locale (some "ru") (some "zh") ["mn"] ["en", "ru"] =
        ("ru", some ("lang", "ru")) :=
  ⟨by decide,
    c1_valid_override_selected_and_persisted "ru" (some "zh") ["mn"]
      ["en", "ru"] (by decide)⟩

/-- C2: for every non-empty session value, when the override is absent or
not a member of the supported languages, `get_locale` returns the session
value verbatim with no session write and no validation against the
supported languages. -/
theorem c2_session_value_verbatim
    (o : Option String) (v : String) (accepted languages : List String)
    (_hne : v ≠ "") (ho : ∀ w, o = some w → w ∉ languages) :
    get_locale o (some v) accepted languages = (v, none) := by
  cases o with
  | none => simp [get_locale]
  | some w =>
    rw [get_locale_skip_invalid_override w (some v) accepted languages (ho w rfl)]
    simp [get_locale]

/-- C2 witness: session `"xx"` (outside the supported set) is returned
verbatim past the unsupported override `"fr"`. -/
theorem c2_witness :
    ("xx" : String) ≠ "" ∧
      get_locale (some "fr") (some "xx") ["en"] ["en", "ru"] = ("xx", none) :=
  ⟨by decide,
    c2_session_value_verbatim (some "fr") "xx" ["en"] ["en", "ru"] (by decide)
      (by intro w hw; cases hw; decide)⟩

/-- C5 counterexample: with no override, an empty-string value stored in
the session slot and an empty accepted-language list, `get_locale`
returns the empty string, so the resolution does not return a non-empty
locale for every combination of inputs. -/
theorem c5_counterexample :
    (get_locale none (some "") [] ["en"]).1 = "" := rfl

/-- C5 amended: `get_locale` is a total function (no error path) and the
selected locale is non-empty provided the session value, when present, is
non-empty and the empty string is not among the supported languages. -/
theorem c5_nonempty_result
    (o sess : Option String) (accepted languages : List String)
    (hs : ∀ v, sess = some v → v ≠ "") (hl : "" ∉ languages) :
    (get_locale o sess accepted languages).1 ≠ "" := by
  have lower_ne : (get_locale none sess accepted languages).1 ≠ "" := by
    unfold get_locale
    cases sess with
    | some l => exact hs l rfl
    | none =>
      cases hbm : best_match accepted languages with
      | none => simp [hbm]
      | some m =>
        simp only [hbm]
        by_cases hm : pyTruthy m
        · simpa [hm] using by simpa [pyTruthy] using hm
        · simp [hm]
  cases o with
  | none => exact lower_ne
  | some w =>
    by_cases hw : w ∈ languages
    · simp only [get_locale, if_pos hw]
      intro hcontra
      exact hl (hcontra ▸ hw)
    · rw [get_locale_skip_invalid_override w sess accepted languages hw]
      exact lower_ne

/-- C5 witness: no override, session `"ru"`, empty accepted list,
supported `["en"]`. -/
theorem c5_witness :
    (∀ v, (some "ru" : Option String) = some v → v ≠ "") ∧
      ("" : String) ∉ ["en"] ∧
      (get_locale none (some "ru") [] ["en"]).1 ≠ "" :=
  ⟨by intro v hv; cases hv; decide, by decide,
    c5_nonempty_result none (some "ru") [] ["en"]
      (by intro v hv; cases hv; decide) (by decide)⟩

/-- C6: an override value outside the supported languages is silently
ignored: with no session value the resolution proceeds exactly as without
the override (header negotiation), and when negotiation yields no match
the default `"en"` is returned with no session write. -/
theorem c6_invalid_override_falls_through
    (v : String) (accepted languages : List String) (hv : v ∉ languages) :
    get_locale (some v) none accepted languages =
      get_locale none none accepted languages ∧
    (best_match accepted languages = none →
      get_locale (some v) none accepted languages = ("en", none)) := by
  constructor
  · exact get_locale_skip_invalid_override v none accepted languages hv
  · intro hbm
    simp [get_locale, hv, hbm]

/-- C6 witness: unsupported override `"xx"` with an empty accepted list
falls back to the default. -/
theorem c6_witness :
    ("xx" : String) ∉ ["en", "ru"] ∧
      get_locale (some "xx") none [] ["en", "ru"] = ("en", none) :=
  ⟨by decide,
    (c6_invalid_override_falls_through "xx" [] ["en", "ru"] (by decide)).2 rfl⟩

/-- C8: a session write is emitted only on the valid-override tier: when
the override is absent or not a member of the supported languages, no
write instruction is emitted and applying the (absent) instruction leaves
the session unchanged; the `Option`-valued instruction slot means at most
one write is requested per resolution. -/
theorem c8_write_only_on_valid_override
    (o sess : Option String) (accepted languages : List String)
    (ho : ∀ v, o = some v → v ∉ languages) :
    (get_locale o sess accepted languages).2 = none ∧
    apply_session_write sess (get_locale o sess accepted languages).2 = sess := by
  have hsnd : (get_locale o sess accepted languages).2 = none := by
    cases o with
    | none => exact get_locale_no_override_snd sess accepted languages
    | some w =>
      rw [get_locale_skip_invalid_override w sess accepted languages (ho w rfl)]
      exact get_locale_no_override_snd sess accepted languages
  exact ⟨hsnd, by rw [hsnd]; rfl⟩

/-- C8 witness: unsupported override `"xx"` over session `"ru"` emits no
write. -/
theorem c8_witness :
    (∀ v, (some "xx" : Option String) = some v → v ∉ ["en"]) ∧
      (get_locale (some "xx") (some "ru") ["en"] ["en"]).2 = none :=
  ⟨by intro v hv; cases hv; decide,
    (c8_write_only_on_valid_override (some "xx") (some "ru") ["en"] ["en"]
      (by intro v hv; cases hv; decide)).1⟩

/-- C9: resolving twice with identical inputs yields the same selected
locale and the same session-write instruction; moreover, re-resolving
after applying the emitted instruction to the session again yields the
identical result. -/
theorem c9_resolve_idempotent
    (o sess : Option String) (accepted languages : List String) :
    get_locale o sess accepted languages = get_locale o sess accepted languages ∧
    get_locale o
        (apply_session_write sess (get_locale o sess accepted languages).2)
        accepted languages =
      get_locale o sess accepted languages := by
  refine ⟨rfl, ?_⟩
  cases o with
  | none =>
    rw [get_locale_no_override_snd sess accepted languages]
    rfl
  | some w =>
    by_cases hw : w ∈ languages
    · simp [get_locale, hw, apply_session_write]
    · rw [get_locale_skip_invalid_override w sess accepted languages hw,
        get_locale_no_override_snd sess accepted languages]
      exact get_locale_skip_invalid_override w sess accepted languages hw

/-- C3: `time_ago` buckets a past instant by the elapsed-second
thresholds 60, 3600, 86400, 604800, 2592000 and 31536000 tested in
order, with count floor(elapsed / bucket divisor): the six documented
boundary values render as stated, and in particular months and years use
the fixed 2592000-second (30-day) and 31536000-second (365-day)
divisors. -/
theorem c3_time_ago_bucket_thresholds (t now : Int) :
    (now - t = 59 → time_ago (some t) now = "Just now") ∧
    (now - t = 60 → time_ago (some t) now = "1 minute ago") ∧
    (now - t = 3599 → time_ago (some t) now = "59 minutes ago") ∧
    (now - t = 3600 → time_ago (some t) now = "1 hour ago") ∧
    (now - t = 86399 → time_ago (some t) now = "23 hours ago") ∧
    (now - t = 86400 → time_ago (some t) now = "1 day ago") ∧
    (0 ≤ now - t → now - t < 60 → time_ago (some t) now = "Just now") ∧
    (60 ≤ now - t → now - t < 3600 → time_ago (some t) now =
      subst_num (ngettext "%(num)d minute ago" "%(num)d minutes ago"
        ((now - t) / 60)) ((now - t) / 60)) ∧
    (3600 ≤ now - t → now - t < 86400 → time_ago (some t) now =
      subst_num (ngettext "%(num)d hour ago" "%(num)d hours ago"
        ((now - t) / 3600)) ((now - t) / 3600)) ∧
    (86400 ≤ now - t → now - t < 604800 → time_ago (some t) now =
      subst_num (ngettext "%(num)d day ago" "%(num)d days ago"
        ((now - t) / 86400)) ((now - t) / 86400)) ∧
    (604800 ≤ now - t → now - t < 2592000 → time_ago (some t) now =
      subst_num (ngettext "%(num)d week ago" "%(num)d weeks ago"
        ((now - t) / 604800)) ((now - t) / 604800)) ∧
    (2592000 ≤ now - t → now - t < 31536000 → time_ago (some t) now =
      subst_num (ngettext "%(num)d month ago" "%(num)d months ago"
        ((now - t) / 2592000)) ((now - t) / 2592000)) ∧
    (31536000 ≤ now - t → time_ago (some t) now =
      subst_num (ngettext "%(num)d year ago" "%(num)d years ago"
        ((now - t) / 31536000)) ((now - t) / 31536000)) := by
  refine ⟨?_, ?_, ?_, ?_, ?_, ?_, ?_, ?_, ?_, ?_, ?_, ?_, ?_⟩ <;>
    intro h1
  case _ => rw [time_ago_shift, h1]; decide
  case _ => rw [time_ago_shift, h1]; decide
  case _ => rw [time_ago_shift, h1]; decide
  case _ => rw [time_ago_shift, h1]; decide
  case _ => rw [time_ago_shift, h1]; decide
  case _ => rw [time_ago_shift, h1]; decide
  all_goals
    first
    | (intro h2
       simp only [time_ago]
       split_ifs <;> first | rfl | (exfalso; omega))
    | (simp only [time_ago]
       split_ifs <;> first | rfl | (exfalso; omega))

/-- C3 witness: one day of elapsed time at the 86400-second boundary. -/
theorem c3_witness :
    (86400 : Int) - 0 = 86400 ∧ time_ago (some 0) 86400 = "1 day ago" :=
  ⟨by decide, (c3_time_ago_bucket_thresholds 0 86400).2.2.2.2.2.1 (by decide)⟩

/-- C7: `is_new` is the one-sided test `elapsed < days * 86400`: it holds
exactly when `now - t < days * 86400`; for a non-negative threshold a
future instant is always new; and the three documented examples hold. -/
theorem c7_is_new_one_sided (t now days : Int) :
    (is_new (some t) now days = true ↔ now - t < days * 86400) ∧
    (0 ≤ days → now < t → is_new (some t) now days = true) ∧
    is_new (some (now - 3 * 86400)) now 7 = true ∧
    is_new (some (now - 10 * 86400)) now 7 = false ∧
    is_new (some (now - 2 * 86400)) now 1 = false := by
  refine ⟨?_, ?_, ?_, ?_, ?_⟩
  · simp [is_new]
  · intro hd ht
    simp only [is_new, decide_eq_true_eq]
    omega
  · simp only [is_new, decide_eq_true_eq]
    omega
  · simp only [is_new, decide_eq_false_iff_not]
    omega
  · simp only [is_new, decide_eq_false_iff_not]
    omega

/-- C7 witness: an instant 100 seconds in the future is new under a
7-day threshold. -/
theorem c7_witness :
    (0 : Int) ≤ 7 ∧ (0 : Int) < 100 ∧ is_new (some 100) 0 7 = true :=
  ⟨by decide, by decide, (c7_is_new_one_sided 100 0 7).2.1 (by decide) (by decide)⟩

/-- C10: a target instant strictly in the future gives negative elapsed
seconds, which satisfy the first bucket condition, so `time_ago` renders
the just-now phrase and never a bucket with a negative count. -/
theorem c10_future_instant_just_now (t now : Int) (h : now < t) :
    time_ago (some t) now = "Just now" := by
  have hlt : now - t < 60 := by omega
  simp [time_ago, hlt]

/-- C10 witness: an instant one second in the future. -/
theorem c10_witness :
    (0 : Int) < 1 ∧ time_ago (some 1) 0 = "Just now" :=
  ⟨by decide, c10_future_instant_just_now 1 0 (by decide)⟩

/-- C4: the Russian cardinal rule returns `one` when n % 10 = 1 and
n % 100 ≠ 11, `few` when n % 10 lies in 2..4 and n % 100 outside 12..14,
and `many` otherwise, and it classifies the documented sample counts
accordingly. -/
theorem c4_russian_plural_rule (n : Nat) :
    (n % 10 = 1 ∧ n % 100 ≠ 11 → selectCategoryRu n = .one) ∧
    ((2 ≤ n % 10 ∧ n % 10 ≤ 4) ∧ ¬(12 ≤ n % 100 ∧ n % 100 ≤ 14) →
      selectCategoryRu n = .few) ∧
    (¬(n % 10 = 1 ∧ n % 100 ≠ 11) →
      ¬((2 ≤ n % 10 ∧ n % 10 ≤ 4) ∧ ¬(12 ≤ n % 100 ∧ n % 100 ≤ 14)) →
      selectCategoryRu n = .many) ∧
    (∀ m ∈ [1, 21, 31], selectCategoryRu m = .one) ∧
    (∀ m ∈ [2, 3, 4, 22, 23, 24], selectCategoryRu m = .few) ∧
    (∀ m ∈ [5, 11, 12, 13, 14, 25], selectCategoryRu m = .many) := by
  refine ⟨?_, ?_, ?_, by decide, by decide, by decide⟩ <;>
    unfold selectCategoryRu
  · intro h
    rw [if_pos h]
  · intro h
    obtain ⟨⟨h2a, h2b⟩, h2c⟩ := h
    rw [if_neg fun hc => absurd hc.1 (by omega), if_pos ⟨⟨h2a, h2b⟩, h2c⟩]
  · intro h1 h2
    rw [if_neg h1, if_neg h2]

/-- C4 witness: 21 is in category `one`. -/
theorem c4_witness :
    (21 % 10 = 1 ∧ 21 % 100 ≠ 11) ∧ selectCategoryRu 21 = PluralCategory.one :=
  ⟨by decide, (c4_russian_plural_rule 21).1 (by decide)⟩
